import Mathlib

set_option maxRecDepth 16384

/-!
Verification of the file-integrity classification engine of this repository
(`script.py` / `verificador_interativo.py`) via a shallow embedding.

A file on disk is modelled by `FSFile`: its extension (the lowercased
`Path(...).suffix`), whether the path exists, whether `os.stat` raises,
whether the process has read access (`os.access(..., R_OK)`; in the model
every read of the file succeeds exactly when this flag is true), and its
on-disk byte content (`List Nat`, each entry a byte value).

Behaviour of external libraries that the validators call out to
(`json.load`, `compile`, `xml.etree`, `zipfile`, `csv.reader`, pandas, the
digest algorithms) is supplied by an `Env` of outcome functions, so every
definition stays executable while the control flow around those calls is
translated from the source.  Python dicts whose key set varies are
embedded as structures of `Option` fields: a key is in the dict iff the
field is `some`.
-/

/-- A byte string: each element is a byte value `0..255`
(or a Unicode code point, for decoded text). -/
abbrev Bytes := List Nat

/-- On-disk state of one path, as the checker can observe it. -/
structure FSFile where
  path : String
  /-- `Path(path).suffix.lower()` of the path. -/
  ext : String
  /-- `os.path.exists(path)`. -/
  pathExists : Bool
  /-- whether `os.stat` raises an exception for this path. -/
  statErr : Bool
  /-- `os.access(path, os.R_OK)`; in the model, opening/reading the file
  succeeds exactly when this is true. -/
  readable : Bool
  /-- the byte content on disk (also what `os.stat` reports as size). -/
  content : Bytes
  deriving Repr

/-- `integrity_status` values (`script.py` lines 531-565). -/
inductive IntegrityStatus where
  | INTACT
  | CORRUPTED
  | INACCESSIBLE
  | UNKNOWN
  deriving DecidableEq, Repr, BEq

/-- Embedding of the per-validator result dict (`specific_checks`).
Each Python dict key becomes an `Option` field; the key is present in the
dict iff the field is `some _`.  The union of fields over all validators
of `script.py` is used, since the dict shape varies per validator. -/
structure IntegrityCheck where
  format_valid : Option Bool := none
  rows_count : Option Nat := none
  columns_count : Option Nat := none
  encoding : Option String := none
  separator : Option String := none
  json_valid : Option Bool := none
  data_type : Option String := none
  keys_count : Option Nat := none
  items_count : Option Nat := none
  sheets_count : Option Nat := none
  sheet_names : Option (List String) := none
  sheets_info : Option String := none
  total_cells : Option Nat := none
  structure_valid : Option Bool := none
  verification_level : Option String := none
  file_type : Option String := none
  pandas_version : Option String := none
  enhancement_available : Option Bool := none
  missing_modules : Option (List String) := none
  suggestion : Option String := none
  pages_count : Option Nat := none
  pdf_version : Option String := none
  has_eof : Option Bool := none
  lines_count : Option Nat := none
  char_count : Option Nat := none
  -- `syntax_valid` / `syntax_error` of `_check_python_file`, renamed.
  stx_valid : Option Bool := none
  stx_error : Option String := none
  statements_count : Option Nat := none
  well_formed : Option Bool := none
  root_tag : Option String := none
  xml_error : Option String := none
  files_count : Option Nat := none
  is_corrupted : Option Bool := none
  corrupted_file : Option String := none
  rar_signature : Option Bool := none
  format : Option String := none
  message : Option String := none
  error : Option String := none
  warning : Option String := none
  deriving Repr

/-- One finalized verdict per scanned path (the per-file result dict). -/
structure FileRecord where
  file_path : String := ""
  file_size : Nat := 0
  is_accessible : Bool := false
  is_readable : Bool := false
  error : Option String := none
  md5_hash : Option String := none
  sha256_hash : Option String := none
  specific_checks : Option IntegrityCheck := none
  integrity_status : Option IntegrityStatus := none
  warning : Option String := none
  deriving Repr

/-- `self.summary` of `FileIntegrityChecker.__init__` (`script.py` 102-110);
the timestamp field is omitted.  Note there is no counter for UNKNOWN. -/
structure ScanSummary where
  total_files : Nat := 0
  intact_files : Nat := 0
  corrupted_files : Nat := 0
  inaccessible_files : Nat := 0
  excel_files : Nat := 0
  enhanced_excel_analysis : Bool := false
  deriving Repr

/-- Mutable state of a `FileIntegrityChecker` instance during a scan. -/
structure CheckerState where
  results : List FileRecord := []
  excel_enhancement_checked : Bool := false
  summary : ScanSummary := {}
  deriving Repr

/-- Outcome of `json.load` on a decoded document (external library call).
Carries exactly the data the validator inspects: the top-level value kind
and, for dicts/lists, the element count. -/
inductive PyJson where
  | dict (keyCount : Nat)
  | list (itemCount : Nat)
  | str
  | int
  | float
  | bool
  | noneType
  deriving Repr

/-- `type(data).__name__` for a parsed JSON value. -/
def PyJson.typeName : PyJson → String
  | .dict _ => "dict"
  | .list _ => "list"
  | .str => "str"
  | .int => "int"
  | .float => "float"
  | .bool => "bool"
  | .noneType => "NoneType"

/-- Outcome of `compile(content, path, "exec")` (external call). -/
inductive PyCompileOutcome where
  | ok
  | synErr (msg : String)
  | otherExc (msg : String)
  deriving Repr

/-- Outcome of `xml.etree.ElementTree.parse` (external call). -/
inductive XmlOutcome where
  | parsed (rootTag : String)
  | parseErr (msg : String)
  | otherExc (msg : String)
  deriving Repr

/-- Outcome of `zipfile.ZipFile(...)` + `testzip()` + `namelist()`:
either the archive opens (with the first bad member, if any, and the
member names), or opening raises. -/
inductive ZipOutcome where
  | ok (badFile : Option String) (names : List String)
  | openErr (msg : String)
  deriving Repr

/-- Outcome of the pandas advanced Excel analysis (`pd.ExcelFile` and the
per-sheet loop, `script.py` 275-311): the sheet names plus an opaque blob
standing for the per-sheet dataframe statistics, or one of the exception
classes the source distinguishes by message substring. -/
inductive PandasOutcome where
  | ok (sheetNames : List String) (sheetsInfoBlob : String) (totalCells : Nat)
  | emptyData
  | badZip (msg : String)
  | permissionDenied (msg : String)
  | otherExc (msg : String)
  deriving Repr

/-- Environment: behaviour of the external libraries and of the optional
pandas capability, fixed for one run. -/
structure Env where
  md5Hex : Bytes → String
  sha256Hex : Bytes → String
  jsonLoad : Bytes → Except String PyJson
  pyCompile : Bytes → PyCompileOutcome
  xmlParse : Bytes → XmlOutcome
  zipOpen : Bytes → ZipOutcome
  /-- `csv.reader` over decoded text with the detected delimiter:
  the parsed rows, or a `csv.Error` message. -/
  csvRead : Bytes → Nat → Except String (List (List Bytes))
  /-- whether `import pandas; import openpyxl` succeeds during this run
  (after the one-time enhancement/install step, if it ran). -/
  pandasAvailable : Bool
  pandasVersion : String
  /-- modules named by the `ImportError` message when pandas is absent. -/
  missingExcelModules : List String
  pandasExcel : Bytes → PandasOutcome

/-! ## Byte/text helpers (decoding, as the validators use it) -/

/-- bytes of an ASCII string. -/
def asciiBytes (s : String) : Bytes := s.data.map Char.toNat

/-- `bytes.decode("ascii", errors="ignore")`: keep bytes below 128. -/
def asciiIgnoreDecode (bs : Bytes) : String :=
  String.mk ((bs.filter (fun b => b < 128)).map Char.ofNat)

/-- is `b` a UTF-8 continuation byte (`0x80..0xBF`)? -/
def isContByte (b : Nat) : Bool := 0x80 ≤ b && b ≤ 0xBF

/-- whether a byte string is valid UTF-8 (models whether Python's
`utf-8` codec decodes it without `UnicodeDecodeError`). -/
def utf8Valid : Bytes → Bool
  | [] => true
  | b :: rest =>
    if b ≤ 0x7F then utf8Valid rest
    else if 0xC2 ≤ b && b ≤ 0xDF then
      match rest with
      | c1 :: rest1 => isContByte c1 && utf8Valid rest1
      | [] => false
    else if b == 0xE0 then
      match rest with
      | c1 :: c2 :: rest2 =>
        (0xA0 ≤ c1 && c1 ≤ 0xBF) && isContByte c2 && utf8Valid rest2
      | _ => false
    else if (0xE1 ≤ b && b ≤ 0xEC) || b == 0xEE || b == 0xEF then
      match rest with
      | c1 :: c2 :: rest2 => isContByte c1 && isContByte c2 && utf8Valid rest2
      | _ => false
    else if b == 0xED then
      match rest with
      | c1 :: c2 :: rest2 =>
        (0x80 ≤ c1 && c1 ≤ 0x9F) && isContByte c2 && utf8Valid rest2
      | _ => false
    else if b == 0xF0 then
      match rest with
      | c1 :: c2 :: c3 :: rest3 =>
        (0x90 ≤ c1 && c1 ≤ 0xBF) && isContByte c2 && isContByte c3 && utf8Valid rest3
      | _ => false
    else if 0xF1 ≤ b && b ≤ 0xF3 then
      match rest with
      | c1 :: c2 :: c3 :: rest3 =>
        isContByte c1 && isContByte c2 && isContByte c3 && utf8Valid rest3
      | _ => false
    else if b == 0xF4 then
      match rest with
      | c1 :: c2 :: c3 :: rest3 =>
        (0x80 ≤ c1 && c1 ≤ 0x8F) && isContByte c2 && isContByte c3 && utf8Valid rest3
      | _ => false
    else false

/-- decode valid UTF-8 bytes into code points (unreached arms for invalid
input return a dummy; only applied under `utf8Valid`). -/
def utf8Decode : Bytes → Bytes
  | [] => []
  | b :: rest =>
    if b ≤ 0x7F then b :: utf8Decode rest
    else if b ≤ 0xDF then
      match rest with
      | c1 :: rest1 => ((b % 0x20) * 0x40 + c1 % 0x40) :: utf8Decode rest1
      | [] => [b]
    else if b ≤ 0xEF then
      match rest with
      | c1 :: c2 :: rest2 =>
        ((b % 0x10) * 0x1000 + (c1 % 0x40) * 0x40 + c2 % 0x40) :: utf8Decode rest2
      | _ => [b]
    else
      match rest with
      | c1 :: c2 :: c3 :: rest3 =>
        ((b % 8) * 0x40000 + (c1 % 0x40) * 0x1000 + (c2 % 0x40) * 0x40 + c3 % 0x40)
          :: utf8Decode rest3
      | _ => [b]

/-- universal-newline translation of text-mode reads:
`\r\n` and lone `\r` become `\n`. -/
def univNewlines : Bytes → Bytes
  | [] => []
  | 13 :: 10 :: rest => 10 :: univNewlines rest
  | 13 :: rest => 10 :: univNewlines rest
  | b :: rest => b :: univNewlines rest

/-- the multi-encoding text-mode read used by the CSV and text validators
(`encodings = ["utf-8", "latin1", "cp1252", "iso-8859-1"]`, first one that
decodes wins): UTF-8 if the bytes are valid UTF-8, else `latin1`, which
decodes any byte string (so the last two candidates are never reached).
Returns the encoding name and the decoded, newline-translated text. -/
def multiDecode (bs : Bytes) : String × Bytes :=
  if utf8Valid bs then ("utf-8", univNewlines (utf8Decode bs))
  else ("latin1", univNewlines bs)

/-- `len(text.splitlines())` for newline-translated text
(also the number of lines `readlines` returns). -/
def lineCount (bs : Bytes) : Nat :=
  if bs = [] then 0
  else bs.count 10 + (if bs.getLast? == some 10 then 0 else 1)

/-- `str.count(pat)` (non-overlapping occurrences, left to right). -/
def countOccs (pat : Bytes) : Bytes → Nat
  | [] => 0
  | b :: rest =>
    if pat ≠ [] ∧ pat.isPrefixOf (b :: rest) then
      1 + countOccs pat ((b :: rest).drop pat.length)
    else
      countOccs pat rest
termination_by l => l.length
decreasing_by
  · simp only [List.length_drop, List.length_cons]
    have : 1 ≤ pat.length := List.length_pos.mpr (by tauto)
    omega
  · simp

/-- does `pat` occur contiguously in `hay` (`pat in hay` on bytes)? -/
def hasSubstr (pat : Bytes) : Bytes → Bool
  | [] => pat.isPrefixOf []
  | b :: rest => pat.isPrefixOf (b :: rest) || hasSubstr pat rest

/-- ASCII uppercasing, modelling `str.upper()` on the keyword bytes the
SQL validator counts. -/
def asciiUpper (bs : Bytes) : Bytes :=
  bs.map (fun c => if 97 ≤ c && c ≤ 122 then c - 32 else c)

/-- placeholder message for the `str(e)` of a failed `open` on a file the
process cannot read. -/
def openDeniedMsg : String := "[Errno 13] Permission denied"

/-- placeholder message for the `str(e)` of a `UnicodeDecodeError`. -/
def unicodeErrMsg : String := "utf-8 codec cannot decode file content"

/-! ## Format validators (`script.py` 175-520) -/

/-- `_check_csv_file` (`script.py` 175-212). -/
def check_csv_file (env : Env) (f : FSFile) : IntegrityCheck :=
  let c : IntegrityCheck :=
    { format_valid := some false, rows_count := some 0,
      columns_count := some 0, encoding := some "unknown" }
  if !f.readable then { c with error := some openDeniedMsg }
  else
    let (enc, text) := multiDecode f.content
    -- sample = f.read(1024); compare separator counts in the sample
    let sample := text.take 1024
    let separator := [44, 59, 9, 124].foldl
      (fun best sep => if sample.count sep > sample.count best then sep else best) 44
    match env.csvRead text separator with
    | .ok rows =>
      { c with
        format_valid := some true
        rows_count := some rows.length
        columns_count := some (match rows.head? with | some r => r.length | none => 0)
        encoding := some enc
        separator := some (String.mk [Char.ofNat separator]) }
    | .error e => { c with error := some e }

/-- `_check_json_file` (`script.py` 214-235).  The file is opened with
`encoding="utf-8"`, so invalid UTF-8 raises before `json.load` runs and is
caught by the generic handler. -/
def check_json_file (env : Env) (f : FSFile) : IntegrityCheck :=
  let c : IntegrityCheck := { format_valid := some false, json_valid := some false }
  if !f.readable then { c with error := some openDeniedMsg }
  else if !utf8Valid f.content then { c with error := some unicodeErrMsg }
  else
    match env.jsonLoad f.content with
    | .error m => { c with error := some ("JSON inválido: " ++ m) }
    | .ok v =>
      let c := { c with
                 format_valid := some true
                 json_valid := some true
                 data_type := some v.typeName }
      match v with
      | .dict n => { c with keys_count := some n }
      | .list n => { c with items_count := some n }
      | _ => c

/-- `_check_excel_file` (`script.py` 237-348): basic magic-signature tier,
then either the pandas tier or the `ImportError` degradation branch. -/
def check_excel_file (env : Env) (f : FSFile) : IntegrityCheck :=
  let c : IntegrityCheck :=
    { format_valid := some false
      sheets_count := some 0
      verification_level := some "basic" }
  -- basic tier: read the first 8 bytes; on exception, set error and return
  if !f.readable then
    { c with error := some ("Erro na verificação básica: " ++ openDeniedMsg) }
  else
    let header := f.content.take 8
    let c :=
      if f.ext = ".xlsx" then
        if [0x50, 0x4B, 0x03, 0x04].isPrefixOf header then
          { c with format_valid := some true, file_type := some "xlsx" }
        else c
      else if f.ext = ".xls" then
        if [0xD0, 0xCF, 0x11, 0xE0].isPrefixOf header then
          { c with format_valid := some true, file_type := some "xls" }
        else c
      else c
    if env.pandasAvailable then
      let c := { c with
                 verification_level := some "advanced"
                 pandas_version := some env.pandasVersion }
      match env.pandasExcel f.content with
      | .ok names blob cells =>
        let c := { c with
                   sheets_count := some names.length
                   sheet_names := some names
                   sheets_info := some blob
                   total_cells := some cells }
        if names.length > 0 then { c with structure_valid := some true }
        else { c with
               structure_valid := some false
               warning := some "Arquivo Excel sem planilhas válidas" }
      | .emptyData => { c with error := some "Arquivo Excel vazio" }
      | .badZip _ =>
        { c with error := some "Arquivo Excel corrompido ou formato inválido" }
      | .permissionDenied _ =>
        { c with error := some "Sem permissão para acessar arquivo Excel" }
      | .otherExc m => { c with error := some ("Erro na análise Excel: " ++ m) }
    else
      let c := { c with
                 verification_level := some "basic"
                 warning := some ("Verificação limitada - módulos ausentes: "
                   ++ String.intercalate ", " env.missingExcelModules)
                 enhancement_available := some true
                 missing_modules := some env.missingExcelModules }
      if c.format_valid = some true then
        let sug := "Instale pandas e openpyxl para verificação completa de Excel"
        { c with suggestion := some sug }
      else c

/-- `%PDF-` header bytes. -/
def pdfMagic : Bytes := asciiBytes "%PDF-"

/-- `%%EOF` marker bytes. -/
def eofMarker : Bytes := asciiBytes "%%EOF"

/-- `_check_pdf_file` (`script.py` 370-391).  `f.seek(-1024, 2)` raises
`OSError` when the file is shorter than 1024 bytes (negative absolute
position), which the `except` turns into a hard `error`. -/
def check_pdf_file (f : FSFile) : IntegrityCheck :=
  let c : IntegrityCheck := { format_valid := some false, pages_count := some 0 }
  if !f.readable then { c with error := some openDeniedMsg }
  else
    let header := f.content.take 8
    let c :=
      if pdfMagic.isPrefixOf header then
        { c with
          format_valid := some true
          pdf_version := some (asciiIgnoreDecode header) }
      else c
    if f.content.length < 1024 then
      { c with error := some "[Errno 22] Invalid argument" }
    else
      let tail := f.content.drop (f.content.length - 1024)
      if hasSubstr eofMarker tail then { c with has_eof := some true } else c

/-- `_check_text_file` (`script.py` 393-415): multi-encoding read, then
line/char counts; `latin1` accepts every byte string, so a readable text
file never produces an error. -/
def check_text_file (f : FSFile) : IntegrityCheck :=
  let c : IntegrityCheck :=
    { format_valid := some false, lines_count := some 0, encoding := some "unknown" }
  if !f.readable then { c with error := some openDeniedMsg }
  else
    let (enc, text) := multiDecode f.content
    { c with
      format_valid := some true
      lines_count := some (lineCount text)
      encoding := some enc
      char_count := some text.length }

/-- `_check_python_file` (`script.py` 417-437): reads with `utf-8` only
(no fallback encodings), then `compile(...)`; `SyntaxError` keeps
`format_valid` true, every other exception (including the decode error)
sets the hard `error`. -/
def check_python_file (env : Env) (f : FSFile) : IntegrityCheck :=
  let c : IntegrityCheck := { format_valid := some false, stx_valid := some false }
  if !f.readable then { c with error := some openDeniedMsg }
  else if !utf8Valid f.content then { c with error := some unicodeErrMsg }
  else
    match env.pyCompile f.content with
    | .ok =>
      { c with
        format_valid := some true
        stx_valid := some true
        lines_count := some (lineCount (univNewlines (utf8Decode f.content))) }
    | .synErr m => { c with format_valid := some true, stx_error := some m }
    | .otherExc m => { c with error := some m }

/-- `_check_sql_file` (`script.py` 439-459): `utf-8`-only read, then line
count and a keyword-occurrence heuristic over the uppercased content. -/
def check_sql_file (f : FSFile) : IntegrityCheck :=
  let c : IntegrityCheck := { format_valid := some false, statements_count := some 0 }
  if !f.readable then { c with error := some openDeniedMsg }
  else if !utf8Valid f.content then { c with error := some unicodeErrMsg }
  else
    let text := univNewlines (utf8Decode f.content)
    let up := asciiUpper text
    let kws := ["SELECT", "INSERT", "UPDATE", "DELETE", "CREATE", "DROP"]
    { c with
      format_valid := some true
      lines_count := some (lineCount text)
      statements_count := some ((kws.map (fun k => countOccs (asciiBytes k) up)).sum) }

/-- `_check_xml_file` (`script.py` 461-481): a `ParseError` is recorded as
the non-fatal `xml_error` with `format_valid` true; any other exception
(an unreadable file, or the unreachable stdlib `ImportError`) sets the
hard `error`. -/
def check_xml_file (env : Env) (f : FSFile) : IntegrityCheck :=
  let c : IntegrityCheck := { format_valid := some false, well_formed := some false }
  if !f.readable then { c with error := some openDeniedMsg }
  else
    match env.xmlParse f.content with
    | .parsed tag =>
      { c with
        format_valid := some true
        well_formed := some true
        root_tag := some tag }
    | .parseErr m => { c with format_valid := some true, xml_error := some m }
    | .otherExc m => { c with error := some m }

/-- `_check_zip_file` (`script.py` 483-503). -/
def check_zip_file (env : Env) (f : FSFile) : IntegrityCheck :=
  let c : IntegrityCheck := { format_valid := some false, files_count := some 0 }
  if !f.readable then { c with error := some openDeniedMsg }
  else
    match env.zipOpen f.content with
    | .openErr m => { c with error := some m }
    | .ok badFile names =>
      let c := { c with
                 format_valid := some true
                 is_corrupted := some badFile.isSome
                 files_count := some names.length }
      match badFile with
      | some b => if b = "" then c else { c with corrupted_file := some b }
      | none => c

/-- `Rar!\x1a\x07\x00` signature bytes. -/
def rarMagic : Bytes := asciiBytes "Rar!" ++ [0x1A, 0x07, 0x00]

/-- `_check_rar_file` (`script.py` 505-520). -/
def check_rar_file (f : FSFile) : IntegrityCheck :=
  let c : IntegrityCheck := { format_valid := some false }
  if !f.readable then { c with error := some openDeniedMsg }
  else if rarMagic.isPrefixOf f.content then
    { c with format_valid := some true, rar_signature := some true }
  else c

/-! ## Accessibility prober, hasher, dispatch, decision
(`script.py` 127-173 and 522-567) -/

/-- `_check_basic_accessibility` (`script.py` 139-173): existence check,
`os.stat` (size), `os.access` read probe; any exception leaves the
defaults in place and records the message. -/
def check_basic_accessibility (f : FSFile) : FileRecord :=
  let base : FileRecord := { file_path := f.path }
  if !f.pathExists then { base with error := some "Arquivo não encontrado" }
  else if f.statErr then { base with error := some "OSError: stat failed" }
  else
    { base with
      file_size := f.content.length
      is_accessible := true
      is_readable := f.readable }

/-- `calculate_file_hash` (`script.py` 127-137): streams the file and
returns the hex digest, or `None` when any exception occurs (in the
model, reading succeeds exactly when the file is readable). -/
def calculate_file_hash (env : Env) (f : FSFile) (algorithm : String) : Option String :=
  if f.readable then
    some (if algorithm = "md5" then env.md5Hex f.content else env.sha256Hex f.content)
  else none

/-- the `self.file_handlers` dispatch (`script.py` 113-125, 546-550):
route by extension, falling back to the unknown-format marker. -/
def runHandler (env : Env) (f : FSFile) : IntegrityCheck :=
  if f.ext = ".csv" then check_csv_file env f
  else if f.ext = ".json" then check_json_file env f
  else if f.ext = ".xlsx" then check_excel_file env f
  else if f.ext = ".xls" then check_excel_file env f
  else if f.ext = ".pdf" then check_pdf_file f
  else if f.ext = ".txt" then check_text_file f
  else if f.ext = ".py" then check_python_file env f
  else if f.ext = ".sql" then check_sql_file f
  else if f.ext = ".xml" then check_xml_file env f
  else if f.ext = ".zip" then check_zip_file env f
  else if f.ext = ".rar" then check_rar_file f
  else { format := some "unknown", message := some "Tipo de arquivo não reconhecido" }

/-- `_check_excel_enhancement` (`script.py` 350-368): memoized one-time
capability probe; sets the summary flag when the capability is (or, after
the optional install, becomes) importable. -/
def check_excel_enhancement (env : Env) (cs : CheckerState) : CheckerState :=
  if cs.excel_enhancement_checked then cs
  else
    let cs := { cs with excel_enhancement_checked := true }
    if env.pandasAvailable then
      { cs with summary := { cs.summary with enhanced_excel_analysis := true } }
    else cs

/-- `check_file_integrity` (`script.py` 522-567): prober, early return
for inaccessible paths, hasher, excel bookkeeping, dispatch, and the
status decision.  Returns the updated checker state and the record. -/
def check_file_integrity (env : Env) (cs : CheckerState) (f : FSFile) :
    CheckerState × FileRecord :=
  let base := check_basic_accessibility f
  if !base.is_accessible then
    (cs, { base with integrity_status := some .INACCESSIBLE })
  else
    let cs :=
      if f.ext = ".xlsx" || f.ext = ".xls" then
        let cs := check_excel_enhancement env cs
        { cs with summary := { cs.summary with excel_files := cs.summary.excel_files + 1 } }
      else cs
    let r := { base with
               md5_hash := calculate_file_hash env f "md5"
               sha256_hash := calculate_file_hash env f "sha256"
               specific_checks := some (runHandler env f) }
    let r :=
      if r.is_readable then
        if r.file_size = 0 then
          { r with integrity_status := some .UNKNOWN, warning := some "Arquivo vazio" }
        else
          match r.specific_checks with
          | some sc =>
            if sc.error = none then { r with integrity_status := some .INTACT }
            else { r with integrity_status := some .CORRUPTED }
          | none => { r with integrity_status := some .INTACT }
      else { r with integrity_status := some .CORRUPTED }
    (cs, r)

/-! ## Aggregation and scanning (`script.py` 569-602, `main` 696-727;
`verificador_interativo.py` `CustomFileChecker.process_file` 339-360) -/

/-- the summary increments of the per-file loop body
(`script.py` 589-597, identically `verificador_interativo.py` 345-353):
`total_files` always, then exactly one status counter for
INTACT / CORRUPTED / INACCESSIBLE — no counter exists for UNKNOWN. -/
def tally (s : ScanSummary) (r : FileRecord) : ScanSummary :=
  let s := { s with total_files := s.total_files + 1 }
  if r.integrity_status = some .INTACT then
    { s with intact_files := s.intact_files + 1 }
  else if r.integrity_status = some .CORRUPTED then
    { s with corrupted_files := s.corrupted_files + 1 }
  else if r.integrity_status = some .INACCESSIBLE then
    { s with inaccessible_files := s.inaccessible_files + 1 }
  else s

/-- one iteration of the per-file loop (`script.py` 585-597, and
`CustomFileChecker.process_file`): check, append the record, update the
summary. -/
def scanFile (env : Env) (cs : CheckerState) (f : FSFile) : CheckerState :=
  let p := check_file_integrity env cs f
  { p.1 with results := p.1.results ++ [p.2], summary := tally p.1.summary p.2 }

/-- a directory handed to the scanner: whether `os.path.exists` holds,
and the files the walk yields inside it. -/
structure ScanDir where
  dirExists : Bool
  files : List FSFile

/-- `scan_directories` (`script.py` 569-602): skip missing directories,
process every file of the remaining ones in order. -/
def scan_directories (env : Env) (dirs : List ScanDir) : CheckerState :=
  dirs.foldl
    (fun cs d => if d.dirExists then d.files.foldl (scanFile env) cs else cs)
    {}

/-- `main` (`script.py` 696-727): filter the supplied directories down to
the existing ones; exit 1 when none is left, otherwise scan, report and
fall off the end of the program (exit 0).  Returns the process exit code
and, when the scan ran, the final summary. -/
def mainRun (env : Env) (dirs : List ScanDir) : Nat × Option ScanSummary :=
  let validDirectories := dirs.filter (fun d => d.dirExists)
  if validDirectories.isEmpty then (1, none)
  else (0, some (scan_directories env validDirectories).summary)

/-! ## Concrete instances used by witnesses and counterexamples -/

/-- a fixed environment for concrete evaluations: every external call
gets a simple, legal outcome. -/
def defaultEnv : Env :=
  { md5Hex := fun _ => "d41d8cd98f00b204e9800998ecf8427e"
    sha256Hex := fun _ => "e3b0c44298fc1c149afbf4c8996fb924"
    jsonLoad := fun _ => .ok (.dict 1)
    pyCompile := fun _ => .ok
    xmlParse := fun _ => .parseErr "mismatched tag: line 1, column 0"
    zipOpen := fun _ => .openErr "File is not a zip file"
    csvRead := fun text _ => .ok [[text]]
    pandasAvailable := false
    pandasVersion := "2.0.0"
    missingExcelModules := ["pandas", "openpyxl"]
    pandasExcel := fun _ => .otherExc "unreachable" }

/-- whether the prober reports the file accessible. -/
def accessibleF (f : FSFile) : Bool := f.pathExists && !f.statErr

/-! ## Helper lemmas -/

theorem isPrefixOf_take_eq : ∀ (p l : Bytes) (n : Nat), p.length ≤ n →
    p.isPrefixOf (l.take n) = p.isPrefixOf l
  | [], l, n, _ => by simp [List.isPrefixOf]
  | a :: p, [], n, _ => by simp [List.isPrefixOf]
  | a :: p, b :: l, 0, h => by simp at h
  | a :: p, b :: l, n + 1, h => by
    simp only [List.take_succ_cons, List.isPrefixOf]
    rw [isPrefixOf_take_eq p l n (by simpa using h)]

/-- the final record always carries exactly one status. -/
theorem integrity_status_exists (env : Env) (cs : CheckerState) (f : FSFile) :
    ∃ s, (check_file_integrity env cs f).2.integrity_status = some s := by
  obtain ⟨p, e, pe, se, rd, ct⟩ := f
  cases pe <;> cases se <;> cases rd <;>
    simp [check_file_integrity, check_basic_accessibility]
  all_goals
    split
  all_goals
    first
    | exact ⟨_, rfl⟩
    | (split <;> exact ⟨_, rfl⟩)

/-! ## Claims -/

/-- an accessible, zero-byte file the process cannot read. -/
def zeroByteUnreadable : FSFile :=
  { path := "/data/locked_empty.txt", ext := ".txt", pathExists := true,
    statErr := false, readable := false, content := [] }

/-- C2, counterexample: an accessible zero-byte file that is not readable is
classified CORRUPTED, not UNKNOWN — refuting the claim for the
"not readable" half of "whether or not it is readable"
(`script.py` 553 tests `is_readable` before the size test at 554). -/
theorem claim2_empty_file_counterexample :
    accessibleF zeroByteUnreadable = true ∧
    zeroByteUnreadable.content.length = 0 ∧
    (check_file_integrity defaultEnv {} zeroByteUnreadable).2.integrity_status
      = some .CORRUPTED ∧
    (check_file_integrity defaultEnv {} zeroByteUnreadable).2.integrity_status
      ≠ some .UNKNOWN := by
  refine ⟨rfl, rfl, rfl, by decide⟩

/-- C2, amended: for every accessible and *readable* zero-byte file,
whatever its extension, the status is UNKNOWN with the empty-file warning
(the Portuguese string "Arquivo vazio"), never CORRUPTED. -/
theorem claim2_empty_file_amended (env : Env) (cs : CheckerState) (f : FSFile)
    (hacc : accessibleF f = true) (hrd : f.readable = true)
    (hsz : f.content = []) :
    (check_file_integrity env cs f).2.integrity_status = some .UNKNOWN ∧
    (check_file_integrity env cs f).2.warning = some "Arquivo vazio" := by
  obtain ⟨p, e, pe, se, rd, ct⟩ := f
  simp only [accessibleF, Bool.and_eq_true, Bool.not_eq_true'] at hacc
  obtain ⟨hp, hs⟩ := hacc
  subst hp hs hrd hsz
  simp [check_file_integrity, check_basic_accessibility]

/-- a readable, accessible zero-byte CSV file. -/
def zeroByteReadableCsv : FSFile :=
  { path := "/d/e.csv", ext := ".csv", pathExists := true, statErr := false,
    readable := true, content := [] }

/-- C2, witness at a concrete readable empty CSV file. -/
theorem claim2_empty_file_amended_witness :
    (check_file_integrity defaultEnv {} zeroByteReadableCsv).2.integrity_status
      = some .UNKNOWN ∧
    (check_file_integrity defaultEnv {} zeroByteReadableCsv).2.warning
      = some "Arquivo vazio" :=
  claim2_empty_file_amended defaultEnv {} zeroByteReadableCsv rfl rfl rfl

/-- a path that does not exist. -/
def missingTxtFile : FSFile :=
  { path := "/gone.txt", ext := ".txt", pathExists := false, statErr := false,
    readable := false, content := [] }

/-- C3: every scanned path gets exactly one of the four statuses, the
status is INACCESSIBLE iff the prober found the file inaccessible, and for
an inaccessible file no digest is computed and no validator runs. -/
theorem claim3_inaccessible_iff (env : Env) (cs : CheckerState) (f : FSFile) :
    (check_file_integrity env cs f).2.integrity_status ≠ none ∧
    ((check_file_integrity env cs f).2.integrity_status = some .INACCESSIBLE
      ↔ accessibleF f = false) ∧
    (accessibleF f = false →
      (check_file_integrity env cs f).2.md5_hash = none ∧
      (check_file_integrity env cs f).2.sha256_hash = none ∧
      (check_file_integrity env cs f).2.specific_checks = none) := by
  obtain ⟨p, e, pe, se, rd, ct⟩ := f
  cases pe <;> cases se <;> cases rd <;>
    simp [check_file_integrity, check_basic_accessibility, accessibleF,
      calculate_file_hash] <;>
  split <;>
    first
    | simp
    | (split <;> simp)

/-- C3, witness: instantiation at a missing path. -/
theorem claim3_inaccessible_iff_witness :
    (check_file_integrity defaultEnv {} missingTxtFile).2.integrity_status ≠ none ∧
    ((check_file_integrity defaultEnv {} missingTxtFile).2.integrity_status
        = some .INACCESSIBLE
      ↔ accessibleF missingTxtFile = false) ∧
    (accessibleF missingTxtFile = false →
      (check_file_integrity defaultEnv {} missingTxtFile).2.md5_hash = none ∧
      (check_file_integrity defaultEnv {} missingTxtFile).2.sha256_hash = none ∧
      (check_file_integrity defaultEnv {} missingTxtFile).2.specific_checks = none) :=
  claim3_inaccessible_iff defaultEnv {} missingTxtFile

/-- C4: for an accessible, readable, non-empty file the status is
CORRUPTED iff the chosen validator's result carries the `error` key; no
other key (warning, is_corrupted, xml_error, ...) forces CORRUPTED. -/
theorem claim4_error_sole_corruption_signal (env : Env) (cs : CheckerState)
    (f : FSFile) (hp : f.pathExists = true) (hs : f.statErr = false)
    (hrd : f.readable = true) (hne : f.content ≠ []) :
    (check_file_integrity env cs f).2.specific_checks = some (runHandler env f) ∧
    ((check_file_integrity env cs f).2.integrity_status = some .CORRUPTED
      ↔ (runHandler env f).error ≠ none) := by
  obtain ⟨p, e, pe, se, rd, ct⟩ := f
  subst hp hs hrd
  simp only [ne_eq] at hne
  simp [check_file_integrity, check_basic_accessibility, hne]
  split <;> simp_all

/-- a readable, non-empty file with an unrecognized extension. -/
def plainLogFile : FSFile :=
  { path := "/d/a.log", ext := ".log", pathExists := true, statErr := false,
    readable := true, content := asciiBytes "hello" }

/-- C4, witness at a readable non-empty file of unrecognized type. -/
theorem claim4_error_sole_corruption_signal_witness :
    (check_file_integrity defaultEnv {} plainLogFile).2.specific_checks
      = some (runHandler defaultEnv plainLogFile) ∧
    ((check_file_integrity defaultEnv {} plainLogFile).2.integrity_status
        = some .CORRUPTED
      ↔ (runHandler defaultEnv plainLogFile).error ≠ none) :=
  claim4_error_sole_corruption_signal defaultEnv {} plainLogFile rfl rfl rfl
    (by decide)

/-- C6: a digest is present in the record only for an accessible and
readable file; for an accessible file whose reads fail the record simply
lacks both digests while the scan of that file still completes (a status
is assigned and the validator result is recorded). -/
theorem claim6_digest_presence (env : Env) (cs : CheckerState) (f : FSFile) :
    ((check_file_integrity env cs f).2.md5_hash ≠ none →
      accessibleF f = true ∧ f.readable = true) ∧
    ((check_file_integrity env cs f).2.sha256_hash ≠ none →
      accessibleF f = true ∧ f.readable = true) ∧
    (accessibleF f = true → f.readable = false →
      (check_file_integrity env cs f).2.md5_hash = none ∧
      (check_file_integrity env cs f).2.sha256_hash = none ∧
      (check_file_integrity env cs f).2.integrity_status ≠ none ∧
      (check_file_integrity env cs f).2.specific_checks ≠ none) := by
  obtain ⟨p, e, pe, se, rd, ct⟩ := f
  cases pe <;> cases se <;> cases rd <;>
    simp [check_file_integrity, check_basic_accessibility, accessibleF,
      calculate_file_hash]

/-- an accessible but unreadable non-empty file. -/
def lockedJsonFile : FSFile :=
  { path := "/d/locked.json", ext := ".json", pathExists := true, statErr := false,
    readable := false, content := asciiBytes "x" }

/-- C6, witness at an accessible but unreadable file. -/
theorem claim6_digest_presence_witness :
    ((check_file_integrity defaultEnv {} lockedJsonFile).2.md5_hash ≠ none →
      accessibleF lockedJsonFile = true ∧ lockedJsonFile.readable = true) ∧
    ((check_file_integrity defaultEnv {} lockedJsonFile).2.sha256_hash ≠ none →
      accessibleF lockedJsonFile = true ∧ lockedJsonFile.readable = true) ∧
    (accessibleF lockedJsonFile = true → lockedJsonFile.readable = false →
      (check_file_integrity defaultEnv {} lockedJsonFile).2.md5_hash = none ∧
      (check_file_integrity defaultEnv {} lockedJsonFile).2.sha256_hash = none ∧
      (check_file_integrity defaultEnv {} lockedJsonFile).2.integrity_status ≠ none ∧
      (check_file_integrity defaultEnv {} lockedJsonFile).2.specific_checks ≠ none) :=
  claim6_digest_presence defaultEnv {} lockedJsonFile

/-- C10: a readable, non-empty `.py` file whose bytes are not valid UTF-8
makes the source-code validator raise a non-syntax exception during the
`utf-8`-only read, which sets the hard `error` and classifies the file
CORRUPTED; the text validator, with its fallback encodings, accepts the
same bytes under `latin1` without any error. -/
theorem claim10_python_no_fallback_encoding (env : Env) (cs : CheckerState)
    (f : FSFile) (hp : f.pathExists = true) (hs : f.statErr = false)
    (hrd : f.readable = true) (hne : f.content ≠ []) (hext : f.ext = ".py")
    (hutf : utf8Valid f.content = false) :
    (check_python_file env f).error = some unicodeErrMsg ∧
    (check_file_integrity env cs f).2.integrity_status = some .CORRUPTED ∧
    (check_text_file f).error = none ∧
    (check_text_file f).encoding = some "latin1" := by
  obtain ⟨p, e, pe, se, rd, ct⟩ := f
  subst hp hs hrd hext
  simp only [ne_eq] at hne
  simp [check_file_integrity, check_basic_accessibility, check_python_file,
    check_text_file, runHandler, multiDecode, hutf, hne]

/-- a readable `.py` file holding one invalid UTF-8 byte. -/
def badUtf8PyFile : FSFile :=
  { path := "/d/bad.py", ext := ".py", pathExists := true, statErr := false,
    readable := true, content := [0xFF] }

/-- C10, witness at a one-byte non-UTF-8 python file. -/
theorem claim10_python_no_fallback_encoding_witness :
    (check_python_file defaultEnv badUtf8PyFile).error = some unicodeErrMsg ∧
    (check_file_integrity defaultEnv {} badUtf8PyFile).2.integrity_status
      = some .CORRUPTED ∧
    (check_text_file badUtf8PyFile).error = none ∧
    (check_text_file badUtf8PyFile).encoding = some "latin1" :=
  claim10_python_no_fallback_encoding defaultEnv {} badUtf8PyFile rfl rfl rfl
    (by decide) rfl (by decide)

/-- a readable PDF file of 16 bytes with a valid header and trailer. -/
def shortPdfFile : FSFile :=
  { path := "/d/tiny.pdf", ext := ".pdf", pathExists := true, statErr := false,
    readable := true, content := asciiBytes "%PDF-1.4 x %%EOF" }

/-- C5, counterexample: on a readable PDF file shorter than 1024 bytes the
EOF probe's `f.seek(-1024, 2)` raises `OSError`, the validator records a
hard error, and the file is classified CORRUPTED — refuting
"the EOF probe itself never produces a hard error ... including files
shorter than 1024 bytes". -/
theorem claim5_pdf_probe_counterexample :
    shortPdfFile.readable = true ∧
    shortPdfFile.content.length < 1024 ∧
    (check_pdf_file shortPdfFile).error ≠ none ∧
    (check_file_integrity defaultEnv {} shortPdfFile).2.integrity_status
      = some .CORRUPTED := by
  refine ⟨rfl, by decide, by decide, rfl⟩

/-- C5, amended: for every readable file of at least 1024 bytes routed to
the PDF validator, a missing `%PDF-` header leaves format-valid false
without an error, the final 1024 bytes are probed for `%%EOF` (recorded as
`has_eof = true` exactly when the marker occurs there), the probe sets no
hard error, and the file is classified INTACT whatever the header. -/
theorem claim5_pdf_probe_amended (env : Env) (cs : CheckerState) (f : FSFile)
    (hp : f.pathExists = true) (hs : f.statErr = false)
    (hrd : f.readable = true) (hext : f.ext = ".pdf")
    (hlen : 1024 ≤ f.content.length) :
    (check_pdf_file f).error = none ∧
    (pdfMagic.isPrefixOf f.content = false →
      (check_pdf_file f).format_valid = some false) ∧
    ((check_pdf_file f).has_eof = some true ↔
      hasSubstr eofMarker (f.content.drop (f.content.length - 1024)) = true) ∧
    (check_file_integrity env cs f).2.integrity_status = some .INTACT := by
  obtain ⟨p, e, pe, se, rd, ct⟩ := f
  subst hp hs hrd hext
  simp only at hlen
  have hne : ct ≠ [] := by
    intro hct; rw [hct] at hlen; simp at hlen
  have hlt : ¬ ct.length < 1024 := by omega
  have hpref : pdfMagic.isPrefixOf (ct.take 8) = pdfMagic.isPrefixOf ct :=
    isPrefixOf_take_eq pdfMagic ct 8 (by decide)
  constructor
  · simp [check_pdf_file, hlt]
    split <;> split <;> simp
  constructor
  · intro hnp
    simp [check_pdf_file, hlt, hpref, hnp]
    split <;> simp
  constructor
  · simp [check_pdf_file, hlt, hpref]
    split <;> split <;> simp_all
  · have herr : (check_pdf_file ⟨p, ".pdf", true, false, true, ct⟩).error = none := by
      simp [check_pdf_file, hlt]
      split <;> split <;> simp
    simp [check_file_integrity, check_basic_accessibility, runHandler, hne, herr]

/-- a readable 1024-byte PDF file: 1019 spaces then `%%EOF`. -/
def bigPdfFile : FSFile :=
  { path := "/d/big.pdf", ext := ".pdf", pathExists := true, statErr := false,
    readable := true, content := List.replicate 1019 32 ++ asciiBytes "%%EOF" }

/-- C5, witness at a 1024-byte file without a `%PDF-` header. -/
theorem claim5_pdf_probe_amended_witness :
    (check_pdf_file bigPdfFile).error = none ∧
    (pdfMagic.isPrefixOf bigPdfFile.content = false →
      (check_pdf_file bigPdfFile).format_valid = some false) ∧
    ((check_pdf_file bigPdfFile).has_eof = some true ↔
      hasSubstr eofMarker
        (bigPdfFile.content.drop (bigPdfFile.content.length - 1024)) = true) ∧
    (check_file_integrity defaultEnv {} bigPdfFile).2.integrity_status
      = some .INTACT :=
  claim5_pdf_probe_amended defaultEnv {} bigPdfFile rfl rfl rfl rfl
    (by simp [bigPdfFile, asciiBytes, List.length_append, List.length_replicate])

/-- with pandas absent, a readable Excel file never gets an error from
the Excel validator (the `ImportError` branch only sets warnings). -/
theorem check_excel_file_no_pandas_no_error (env : Env) (f : FSFile)
    (hpan : env.pandasAvailable = false) (hrd : f.readable = true) :
    (check_excel_file env f).error = none := by
  simp only [check_excel_file, hrd, hpan, Bool.not_true, Bool.false_eq_true,
    if_false, if_true, Bool.true_eq_false]
  split_ifs <;> simp

/-- with pandas absent, the basic tier leaves exactly the magic-signature
verdict in `format_valid`. -/
theorem check_excel_file_no_pandas_format_valid (env : Env) (f : FSFile)
    (hpan : env.pandasAvailable = false) (hrd : f.readable = true)
    (magic : Bytes) (hm : (f.ext = ".xlsx" ∧ magic = [0x50, 0x4B, 0x03, 0x04])
      ∨ (f.ext = ".xls" ∧ magic = [0xD0, 0xCF, 0x11, 0xE0])) :
    ((check_excel_file env f).format_valid = some true ↔
      magic.isPrefixOf (f.content.take 8) = true) := by
  rcases hm with ⟨hext, hmagic⟩ | ⟨hext, hmagic⟩ <;> subst hmagic <;>
    cases hb : (([0x50, 0x4B, 0x03, 0x04] : Bytes).isPrefixOf (f.content.take 8)) <;>
    cases hb2 : (([0xD0, 0xCF, 0x11, 0xE0] : Bytes).isPrefixOf (f.content.take 8)) <;>
      simp [check_excel_file, hpan, hrd, hext, hb, hb2]

/-- C7: with the pandas capability absent, a readable non-empty Excel file
never gets an error from the Excel validator and is classified INTACT; the
basic tier sets format-valid true exactly when the first bytes carry the
format's magic signature (`PK\x03\x04` for xlsx, `D0 CF 11 E0` for xls). -/
theorem claim7_excel_basic_tier (env : Env) (cs : CheckerState) (f : FSFile)
    (hpan : env.pandasAvailable = false) (hp : f.pathExists = true)
    (hs : f.statErr = false) (hrd : f.readable = true) (hne : f.content ≠ []) :
    (check_excel_file env f).error = none ∧
    (f.ext = ".xlsx" →
      ((check_excel_file env f).format_valid = some true ↔
        [0x50, 0x4B, 0x03, 0x04].isPrefixOf f.content = true) ∧
      (check_file_integrity env cs f).2.integrity_status = some .INTACT) ∧
    (f.ext = ".xls" →
      ((check_excel_file env f).format_valid = some true ↔
        [0xD0, 0xCF, 0x11, 0xE0].isPrefixOf f.content = true) ∧
      (check_file_integrity env cs f).2.integrity_status = some .INTACT) := by
  have herr := check_excel_file_no_pandas_no_error env f hpan hrd
  refine ⟨herr, ?_, ?_⟩ <;> intro hext <;>
    refine ⟨?_, ?_⟩
  · rw [check_excel_file_no_pandas_format_valid env f hpan hrd _ (Or.inl ⟨hext, rfl⟩),
      isPrefixOf_take_eq _ f.content 8 (by decide)]
  · obtain ⟨p, e, pe, se, rd, ct⟩ := f
    subst hp hs hrd hext
    simp only [ne_eq] at hne
    simp [check_file_integrity, check_basic_accessibility, runHandler, hne, herr]
  · rw [check_excel_file_no_pandas_format_valid env f hpan hrd _ (Or.inr ⟨hext, rfl⟩),
      isPrefixOf_take_eq _ f.content 8 (by decide)]
  · obtain ⟨p, e, pe, se, rd, ct⟩ := f
    subst hp hs hrd hext
    simp only [ne_eq] at hne
    simp [check_file_integrity, check_basic_accessibility, runHandler, hne, herr]

/-- a readable `.xlsx` file whose leading bytes are unrelated to ZIP. -/
def weirdXlsxFile : FSFile :=
  { path := "/d/w.xlsx", ext := ".xlsx", pathExists := true, statErr := false,
    readable := true, content := [1, 2, 3] }

/-- C7, witness at a readable `.xlsx` file with unrelated leading bytes
and no pandas capability. -/
theorem claim7_excel_basic_tier_witness :
    (check_excel_file defaultEnv weirdXlsxFile).error = none ∧
    (weirdXlsxFile.ext = ".xlsx" →
      ((check_excel_file defaultEnv weirdXlsxFile).format_valid = some true ↔
        [0x50, 0x4B, 0x03, 0x04].isPrefixOf weirdXlsxFile.content = true) ∧
      (check_file_integrity defaultEnv {} weirdXlsxFile).2.integrity_status
        = some .INTACT) ∧
    (weirdXlsxFile.ext = ".xls" →
      ((check_excel_file defaultEnv weirdXlsxFile).format_valid = some true ↔
        [0xD0, 0xCF, 0x11, 0xE0].isPrefixOf weirdXlsxFile.content = true) ∧
      (check_file_integrity defaultEnv {} weirdXlsxFile).2.integrity_status
        = some .INTACT) :=
  claim7_excel_basic_tier defaultEnv {} weirdXlsxFile rfl rfl rfl rfl (by decide)

/-- C8: for a readable non-empty `.xml` file, a well-formedness parse
failure is recorded in the non-fatal `xml_error` field with `format_valid`
true and no hard `error`, and the file is classified INTACT; only an
exception other than a parse error sets the hard `error`, and then the
file is classified CORRUPTED. -/
theorem claim8_xml_parse_error_nonfatal (env : Env) (cs : CheckerState)
    (f : FSFile) (hp : f.pathExists = true) (hs : f.statErr = false)
    (hrd : f.readable = true) (hne : f.content ≠ []) (hext : f.ext = ".xml") :
    (∀ m, env.xmlParse f.content = .parseErr m →
      (check_xml_file env f).xml_error = some m ∧
      (check_xml_file env f).format_valid = some true ∧
      (check_xml_file env f).error = none ∧
      (check_file_integrity env cs f).2.integrity_status = some .INTACT) ∧
    (∀ m, env.xmlParse f.content = .otherExc m →
      (check_xml_file env f).error = some m ∧
      (check_file_integrity env cs f).2.integrity_status = some .CORRUPTED) := by
  obtain ⟨p, e, pe, se, rd, ct⟩ := f
  subst hp hs hrd hext
  simp only [ne_eq] at hne
  constructor <;> intro m hm <;>
    simp [check_file_integrity, check_basic_accessibility, runHandler,
      check_xml_file, hne, hm]

/-- a readable `.xml` file whose parse fails in `defaultEnv`. -/
def malformedXmlFile : FSFile :=
  { path := "/d/bad.xml", ext := ".xml", pathExists := true, statErr := false,
    readable := true, content := asciiBytes "<a><b></a>" }

/-- C8, witness at a malformed XML file. -/
theorem claim8_xml_parse_error_nonfatal_witness :
    (∀ m, defaultEnv.xmlParse malformedXmlFile.content = .parseErr m →
      (check_xml_file defaultEnv malformedXmlFile).xml_error = some m ∧
      (check_xml_file defaultEnv malformedXmlFile).format_valid = some true ∧
      (check_xml_file defaultEnv malformedXmlFile).error = none ∧
      (check_file_integrity defaultEnv {} malformedXmlFile).2.integrity_status
        = some .INTACT) ∧
    (∀ m, defaultEnv.xmlParse malformedXmlFile.content = .otherExc m →
      (check_xml_file defaultEnv malformedXmlFile).error = some m ∧
      (check_file_integrity defaultEnv {} malformedXmlFile).2.integrity_status
        = some .CORRUPTED) :=
  claim8_xml_parse_error_nonfatal defaultEnv {} malformedXmlFile rfl rfl rfl
    (by decide) rfl

/-- C9: the tool's exit status is 0 or 1; it is 1 exactly when none of the
supplied directories exists, independently of every file verdict (the
summary, corrupted counts included, never influences the exit path). -/
theorem claim9_exit_status (env : Env) (dirs : List ScanDir) :
    ((mainRun env dirs).1 = 0 ∨ (mainRun env dirs).1 = 1) ∧
    ((mainRun env dirs).1 = 1 ↔ ∀ d ∈ dirs, d.dirExists = false) := by
  simp only [mainRun]
  rcases hf : dirs.filter (fun d => d.dirExists) with _ | ⟨d, ds⟩ <;> rw [hf]
  · refine ⟨Or.inr rfl, ?_, fun _ => rfl⟩
    intro _ x hx
    have := List.filter_eq_nil_iff.mp hf
    simpa using this x hx
  · refine ⟨Or.inl rfl, ?_, ?_⟩
    · intro h1
      simp at h1
    · intro hall
      have hd : d ∈ dirs.filter (fun d => d.dirExists) := by
        rw [hf]; exact List.mem_cons_self d ds
      have hmem := List.mem_filter.mp hd
      have hfalse := hall d hmem.1
      rw [hfalse] at hmem
      exact absurd hmem.2 (by simp)

/-- number of records carrying a given status. -/
def countStatus (rs : List FileRecord) (x : IntegrityStatus) : Nat :=
  rs.countP (fun r => decide (r.integrity_status = some x))

/-- the aggregation invariant the scan loop maintains: each of the three
summary status counters counts exactly its records, and `total_files`
counts all records (each of which carries one of the four statuses). -/
def SummaryInv (cs : CheckerState) : Prop :=
  cs.summary.intact_files = countStatus cs.results .INTACT ∧
  cs.summary.corrupted_files = countStatus cs.results .CORRUPTED ∧
  cs.summary.inaccessible_files = countStatus cs.results .INACCESSIBLE ∧
  cs.summary.total_files =
    countStatus cs.results .INTACT + countStatus cs.results .CORRUPTED +
    countStatus cs.results .INACCESSIBLE + countStatus cs.results .UNKNOWN

theorem countStatus_append (rs : List FileRecord) (r : FileRecord)
    (x : IntegrityStatus) :
    countStatus (rs ++ [r]) x
      = countStatus rs x + (if r.integrity_status = some x then 1 else 0) := by
  simp [countStatus, List.countP_append, List.countP_cons]

/-- `check_file_integrity` mutates only the excel bookkeeping of the
checker state: the results list and the four aggregate counters that the
scan loop owns are untouched. -/
theorem check_file_integrity_state (env : Env) (cs : CheckerState) (f : FSFile) :
    (check_file_integrity env cs f).1.results = cs.results ∧
    (check_file_integrity env cs f).1.summary.total_files
      = cs.summary.total_files ∧
    (check_file_integrity env cs f).1.summary.intact_files
      = cs.summary.intact_files ∧
    (check_file_integrity env cs f).1.summary.corrupted_files
      = cs.summary.corrupted_files ∧
    (check_file_integrity env cs f).1.summary.inaccessible_files
      = cs.summary.inaccessible_files := by
  simp only [check_file_integrity, check_excel_enhancement]
  split_ifs <;> simp

/-- one scan-loop iteration preserves the aggregation invariant. -/
theorem scanFile_inv (env : Env) (f : FSFile) (cs : CheckerState)
    (h : SummaryInv cs) : SummaryInv (scanFile env cs f) := by
  obtain ⟨h1, h2, h3, h4⟩ := h
  obtain ⟨hr, ht, hi, hc, hin⟩ := check_file_integrity_state env cs f
  obtain ⟨s, hs⟩ := integrity_status_exists env cs f
  unfold scanFile SummaryInv
  simp only [countStatus_append, hr, ht, hi, hc, hin, tally, hs]
  cases s <;> simp [h1, h2, h3, h4] <;> omega

/-- the per-file fold preserves the aggregation invariant. -/
theorem foldl_scanFile_inv (env : Env) (files : List FSFile) (cs : CheckerState)
    (h : SummaryInv cs) : SummaryInv (files.foldl (scanFile env) cs) := by
  induction files generalizing cs with
  | nil => simpa using h
  | cons f fs ih => exact ih _ (scanFile_inv env f cs h)

/-- the whole scan establishes the aggregation invariant. -/
theorem scan_directories_inv (env : Env) (dirs : List ScanDir) :
    SummaryInv (scan_directories env dirs) := by
  unfold scan_directories
  have step : ∀ cs, SummaryInv cs →
      SummaryInv (dirs.foldl
        (fun cs d => if d.dirExists then d.files.foldl (scanFile env) cs else cs)
        cs) := by
    induction dirs with
    | nil => intro cs h; simpa using h
    | cons d ds ih =>
      intro cs h
      simp only [List.foldl_cons]
      apply ih
      split
      · exact foldl_scanFile_inv env d.files cs h
      · exact h
  apply step
  simp [SummaryInv, countStatus]

/-- a readable, accessible, zero-byte text file. -/
def emptyTxtReadable : FSFile :=
  { path := "/data/empty.txt", ext := ".txt", pathExists := true, statErr := false,
    readable := true, content := [] }

/-- C1, counterexample: scanning one readable empty file yields
`total_files = 1` while `intact + corrupted + inaccessible = 0` — the
summary has no counter for UNKNOWN, so the per-status counters do not add
up to `total_files`. -/
theorem claim1_aggregator_sum_counterexample :
    (scan_directories defaultEnv [⟨true, [emptyTxtReadable]⟩]).summary.total_files
      = 1 ∧
    (scan_directories defaultEnv [⟨true, [emptyTxtReadable]⟩]).summary.intact_files
      + (scan_directories defaultEnv
          [⟨true, [emptyTxtReadable]⟩]).summary.corrupted_files
      + (scan_directories defaultEnv
          [⟨true, [emptyTxtReadable]⟩]).summary.inaccessible_files = 0 ∧
    (scan_directories defaultEnv [⟨true, [emptyTxtReadable]⟩]).results.length = 1 ∧
    countStatus (scan_directories defaultEnv [⟨true, [emptyTxtReadable]⟩]).results
      .UNKNOWN = 1 := by
  exact ⟨rfl, rfl, rfl, rfl⟩

/-- C1, amended: the three per-status counters each count exactly the
records of their status, and their sum plus the number of UNKNOWN records
(for which the summary has no counter) equals `total_files`; the sum
equals `total_files` alone only when no record is UNKNOWN. -/
theorem claim1_aggregator_sum_amended (env : Env) (dirs : List ScanDir) :
    (scan_directories env dirs).summary.intact_files
      + (scan_directories env dirs).summary.corrupted_files
      + (scan_directories env dirs).summary.inaccessible_files
      + countStatus (scan_directories env dirs).results .UNKNOWN
      = (scan_directories env dirs).summary.total_files ∧
    (scan_directories env dirs).summary.intact_files
      = countStatus (scan_directories env dirs).results .INTACT ∧
    (scan_directories env dirs).summary.corrupted_files
      = countStatus (scan_directories env dirs).results .CORRUPTED ∧
    (scan_directories env dirs).summary.inaccessible_files
      = countStatus (scan_directories env dirs).results .INACCESSIBLE := by
  obtain ⟨h1, h2, h3, h4⟩ := scan_directories_inv env dirs
  exact ⟨by omega, h1, h2, h3⟩

/-- C1, witness: the amended identity instantiated at a small scan holding
one file of each outcome class. -/
theorem claim1_aggregator_sum_amended_witness :
    (scan_directories defaultEnv
        [⟨true, [emptyTxtReadable, missingTxtFile]⟩]).summary.intact_files
      + (scan_directories defaultEnv
          [⟨true, [emptyTxtReadable, missingTxtFile]⟩]).summary.corrupted_files
      + (scan_directories defaultEnv
          [⟨true, [emptyTxtReadable, missingTxtFile]⟩]).summary.inaccessible_files
      + countStatus (scan_directories defaultEnv
          [⟨true, [emptyTxtReadable, missingTxtFile]⟩]).results .UNKNOWN
      = (scan_directories defaultEnv
          [⟨true, [emptyTxtReadable, missingTxtFile]⟩]).summary.total_files ∧
    (scan_directories defaultEnv
        [⟨true, [emptyTxtReadable, missingTxtFile]⟩]).summary.intact_files
      = countStatus (scan_directories defaultEnv
          [⟨true, [emptyTxtReadable, missingTxtFile]⟩]).results .INTACT ∧
    (scan_directories defaultEnv
        [⟨true, [emptyTxtReadable, missingTxtFile]⟩]).summary.corrupted_files
      = countStatus (scan_directories defaultEnv
          [⟨true, [emptyTxtReadable, missingTxtFile]⟩]).results .CORRUPTED ∧
    (scan_directories defaultEnv
        [⟨true, [emptyTxtReadable, missingTxtFile]⟩]).summary.inaccessible_files
      = countStatus (scan_directories defaultEnv
          [⟨true, [emptyTxtReadable, missingTxtFile]⟩]).results .INACCESSIBLE :=
  claim1_aggregator_sum_amended defaultEnv [⟨true, [emptyTxtReadable, missingTxtFile]⟩]

/-- C9, witness: instantiation at one missing and one existing directory. -/
theorem claim9_exit_status_witness :
    ((mainRun defaultEnv [⟨false, []⟩, ⟨true, [emptyTxtReadable]⟩]).1 = 0 ∨
      (mainRun defaultEnv [⟨false, []⟩, ⟨true, [emptyTxtReadable]⟩]).1 = 1) ∧
    ((mainRun defaultEnv [⟨false, []⟩, ⟨true, [emptyTxtReadable]⟩]).1 = 1 ↔
      ∀ d ∈ ([⟨false, []⟩, ⟨true, [emptyTxtReadable]⟩] : List ScanDir),
        d.dirExists = false) :=
  claim9_exit_status defaultEnv [⟨false, []⟩, ⟨true, [emptyTxtReadable]⟩]
